import Mathlib

/-!
Verification of the reactive GUI engine in `kamodo/cli/gui.py`.

The development shallowly embeds the core of `get_gui` and its helpers:
model-registry loop, plot-parameter resolution, subplot composition
(`make_kamodo_subplots`), the selection callback (`update_subplot`), and the
range-slider callback (`update_figure`).  Numbers are rationals, failure is
explicit (`Except` / `Option`), and the Dash dispatch semantics (an exception
in a callback leaves the output unchanged) is modelled by `apply_output`.
-/

namespace KamodoGui

/-- Classification of a model member, from `type(var_symbol) == UndefinedFunction`
in `gui.py`: an undefined symbolic function is an Independent parameter
placeholder, anything else is a Dependent (plottable) variable. -/
inductive VarKind
| independent
| dependent
deriving DecidableEq, BEq, Repr

/-- An ordered mapping from parameter name to its sample sequence
(the keyword-argument bag passed to `model.figure`). -/
abbrev ParamMap := List (String × List ℚ)

/-- One point of the evaluation grid: a value for each parameter, in order. -/
abbrev GridPoint := List (String × ℚ)

/-- A plotly trace as far as the code observes it: which variable it renders,
the grid-indexing mode it was produced with, the parameter grid it was
evaluated over, and the resulting values. -/
structure Trace where
  var : String
  indexing : String
  grid : List GridPoint
  values : List ℚ
deriving DecidableEq, BEq, Repr, Inhabited

/-- The figure dict returned by `model.figure(...)`; the code reads
`fig['data'][0]`. -/
structure KFig where
  data : List Trace
deriving DecidableEq, BEq, Repr, Inhabited

/-- A subplot figure built by `plotly.subplots.make_subplots` and grown with
`add_trace(trace, row, col)`. -/
structure Fig where
  rows : ℕ
  cols : ℕ
  traces : List (Trace × ℕ × ℕ)
deriving DecidableEq, BEq, Repr, Inhabited

/-- The ways the embedded code can fail:
`preventUpdate` for `raise PreventUpdate`, `valueError` for plotly's rejection
of `make_subplots(rows=0, ...)`, `nameError` for Python's unbound local
`model`, `sysExit` for the `sys.exit()` call in `get_gui`, and `uncaught` for
an exception escaping code that has no handler. -/
inductive BuildErr
| preventUpdate
| valueError
| nameError
| sysExit
| uncaught
deriving DecidableEq, BEq, Repr

/-- A member of a Kamodo model: its name (the printed symbol), its
classification, its callable over a parameter grid (`none` models the callable
raising), and its declared default domains (`none` models `get_defaults`
raising because the callable declares none). -/
structure VarDescr where
  name : String
  kind : VarKind
  callable : List GridPoint → Option (List ℚ)
  defaults : Option ParamMap

/-- A Kamodo model: an ordered collection of members (`model.items()`).
`len(model)` is the number of members, Independent ones included. -/
structure Model where
  members : List VarDescr

/-- Dict lookup `model[var_name]`; `none` models `KeyError`. -/
def model_lookup (m : Model) (v : String) : Option VarDescr :=
  m.members.find? (fun d => d.name = v)

/-- Modelled from the spec: `kamodo.get_defaults` (kamodo core, not under
src/) returns the callable's declared default domains and raises when the
callable declares none. -/
def get_defaults (d : VarDescr) : Option ParamMap :=
  d.defaults

/-- Modelled from the spec: `kamodo.cli.main.eval_config` (not under src/)
turns an explicit plot-config entry into the literal sample sequences it
names, bypassing any Domain validation. -/
def eval_config (args : ParamMap) : ParamMap :=
  args

/-- The full parameter grid: cross product across the declared parameters
with index-based (`ij`) semantics, each parameter varying along its own axis
(the first parameter is the outermost axis). -/
def paramGrid : ParamMap → List GridPoint
  | [] => [[]]
  | (k, vs) :: rest => vs.flatMap (fun v => (paramGrid rest).map (fun tail => (k, v) :: tail))

/-- Modelled from the spec: `model.figure(varname, indexing, return_type=True,
**params)` (kamodo core, not under src/) looks the variable up, evaluates its
callable over the full `ij` cross-product grid of the supplied parameters and
wraps the resulting trace; evaluation raises (`none`) when the symbol is
missing or Independent or when the callable itself raises. -/
def figureTrace (m : Model) (varname : String) (indexing : String) (params : ParamMap) :
    Option Trace :=
  match model_lookup m varname with
  | some d =>
    match d.kind with
    | VarKind.dependent =>
      (d.callable (paramGrid params)).map
        (fun vals => { var := varname, indexing := indexing, grid := paramGrid params, values := vals })
    | VarKind.independent => none
  | none => none

/-- The figure dict produced by `model.figure`, holding the evaluated trace. -/
def figure (m : Model) (varname : String) (indexing : String) (params : ParamMap) :
    Option KFig :=
  (figureTrace m varname indexing params).map (fun t => { data := [t] })

/-- `plotly.subplots.make_subplots(rows, cols)`: plotly raises `ValueError`
(`none`) unless `rows` is positive. -/
def make_subplots (rows cols : ℕ) : Option Fig :=
  if rows = 0 then none else some { rows := rows, cols := cols, traces := [] }

/-- `fig_subplots.add_trace(trace, row, col)`. -/
def add_trace (fig : Fig) (t : Trace) (row col : ℕ) : Fig :=
  { fig with traces := fig.traces ++ [(t, row, col)] }

/-- `model_params.get(varname, {})`. -/
def getParams (ps : List (String × ParamMap)) (v : String) : ParamMap :=
  match ps.find? (fun p => p.1 = v) with
  | some p => p.2
  | none => []

/-- The `for plot_count, varname in enumerate(var_names)` loop of
`make_kamodo_subplots` (gui.py lines 160-171): evaluate each variable's
figure, add its first trace at row `plot_count+1`, column 1; any exception in
the body is caught by the bare `except` which reports and raises
`PreventUpdate`, aborting the whole composition. -/
def subplots_loop (model : Model) (model_params : List (String × ParamMap)) :
    List (ℕ × String) → Fig → Except BuildErr Fig
  | [], fig => Except.ok fig
  | (plot_count, varname) :: rest, fig =>
    match figure model varname "ij" (getParams model_params varname) with
    | some kfig =>
      match kfig.data.head? with
      | some t => subplots_loop model model_params rest (add_trace fig t (plot_count + 1) 1)
      | none => Except.error BuildErr.preventUpdate
    | none => Except.error BuildErr.preventUpdate

/-- `make_kamodo_subplots(model, var_names, model_params)` (gui.py 158-172). -/
def make_kamodo_subplots (model : Model) (var_names : List String)
    (model_params : List (String × ParamMap)) : Except BuildErr Fig :=
  match make_subplots var_names.length 1 with
  | some base => subplots_loop model model_params var_names.enum base
  | none => Except.error BuildErr.valueError

/-- The selection callback `update_subplot` (gui.py 179-183): recompute the
subplots for a non-empty checklist value, otherwise `raise PreventUpdate`. -/
def update_subplot (model : Model) (model_params : List (String × ParamMap))
    (var_names : List String) : Except BuildErr Fig :=
  if 0 < var_names.length then make_kamodo_subplots model var_names model_params
  else Except.error BuildErr.preventUpdate

/-- A registered Dash callback: output component, input component, handler. -/
structure Callback where
  output_id : String
  input_id : String
  handler : List String → Except BuildErr Fig

/-- `generate_subplot_callback(app, graph_id, model, model_name, model_params)`
(gui.py 175-183): registers a callback from the model's checklist to the
model's graph whose closure holds exactly the arguments it was called with. -/
def generate_subplot_callback (graph_id : String) (model : Model) (model_name : String)
    (model_params : List (String × ParamMap)) : Callback :=
  { output_id := graph_id,
    input_id := "checklist-" ++ model_name,
    handler := fun var_names => update_subplot model model_params var_names }

/-- One entry of the `graphs` dict built by `get_gui`:
`graphs[graph_id] = model, model_params, model_name`. -/
structure GraphEntry where
  graph_id : String
  model : Model
  model_params : List (String × ParamMap)
  model_name : String

/-- The registration loop of gui.py lines 153-154. -/
def register_subplot_callbacks (graphs : List GraphEntry) : List Callback :=
  graphs.map (fun g => generate_subplot_callback g.graph_id g.model g.model_name g.model_params)

/-- The `figure` property of every graph component, keyed by component id. -/
abbrev GraphStates := List (String × Fig)

/-- Publish a figure to one graph component. -/
def setState (st : GraphStates) (gid : String) (f : Fig) : GraphStates :=
  st.map (fun p => if p.1 = gid then (gid, f) else p)

/-- Read one graph component's current figure. -/
def getState (st : GraphStates) (gid : String) : Option Fig :=
  (st.find? (fun p => p.1 = gid)).map (fun p => p.2)

/-- Dash's treatment of a callback result: a returned figure replaces the
output component's figure; `PreventUpdate` (or any exception) leaves it
unchanged. -/
def apply_output (st : GraphStates) (gid : String) : Except BuildErr Fig → GraphStates
  | Except.ok f => setState st gid f
  | Except.error _ => st

/-- Deliver one input event: every callback subscribed to the input fires and
its result is applied to its own output. -/
def dispatch (cbs : List Callback) (input_id : String) (value : List String)
    (st : GraphStates) : GraphStates :=
  cbs.foldl
    (fun s cb =>
      if cb.input_id = input_id then apply_output s cb.output_id (cb.handler value) else s)
    st

/-- A plot-config entry for one variable: `none` for a null entry (use
declared defaults), `some args` for an explicit literal mapping. -/
abbrev PlotEntry := Option ParamMap

/-- `get_defaults(model[var_name])` as used at gui.py line 119; both a
`KeyError` on the lookup and a failing `get_defaults` land in the same
`except` clause. -/
def default_entry (m : Model) (v : String) : Option ParamMap :=
  (model_lookup m v).bind get_defaults

/-- The `for var_name, var_args in model_conf.plot.items()` loop of gui.py
lines 116-125: a null entry fetches the variable's declared defaults and any
failure there prints and calls `sys.exit()`; an explicit entry is evaluated
literally. -/
def resolve_plot_entries (model : Model) :
    List (String × PlotEntry) → Except BuildErr (List (String × ParamMap))
  | [] => Except.ok []
  | (var_name, var_args) :: rest =>
    match var_args with
    | none =>
      match default_entry model var_name with
      | some ps => (resolve_plot_entries model rest).map (fun l => (var_name, ps) :: l)
      | none => Except.error BuildErr.sysExit
    | some args =>
      (resolve_plot_entries model rest).map (fun l => (var_name, eval_config args) :: l)

/-- The `model_conf.plot is None` branch of gui.py lines 111-114: collect
`get_defaults` of every Independent member; a raising `get_defaults` has no
handler there. -/
def indep_defaults : List VarDescr → Except BuildErr (List (String × ParamMap))
  | [] => Except.ok []
  | d :: rest =>
    match d.kind with
    | VarKind.independent =>
      match get_defaults d with
      | some ps => (indep_defaults rest).map (fun l => (d.name, ps) :: l)
      | none => Except.error BuildErr.uncaught
    | VarKind.dependent => indep_defaults rest

/-- `model_params` construction, gui.py lines 110-125. -/
def resolve_model_params (model : Model) (plot : Option (List (String × PlotEntry))) :
    Except BuildErr (List (String × ParamMap)) :=
  match plot with
  | none => indep_defaults model.members
  | some entries => resolve_plot_entries model entries

/-- The checklist options built by `get_equation_divs`: one label per
Dependent member, in member order. -/
def dependent_labels (m : Model) : List String :=
  (m.members.filter (fun d => d.kind == VarKind.dependent)).map (fun d => d.name)

/-- The initially selected checklist values of `get_equation_divs`: the
Dependent members whose label appears among the resolved `model_params`. -/
def selected_labels (m : Model) (ps : List (String × ParamMap)) : List String :=
  ((m.members.filter (fun d => d.kind == VarKind.dependent)).filter
    (fun d => (ps.find? (fun p => p.1 = d.name)).isSome)).map (fun d => d.name)

/-- The per-model UI content assembled inside the `get_gui` loop: the tab
label, the checklist id with its options and initial value, the graph id and
its initial figure. -/
structure Tab where
  label : String
  checklist_id : String
  options : List String
  selected : List String
  graph_id : String
  figure : Fig
deriving DecidableEq, BEq, Repr

/-- One entry of `cfg.models`: the result of `hydra.utils.instantiate`
(`none` models the constructor raising) and the `plot` sub-config. -/
structure ModelConf where
  inst : Option Model
  plot : Option (List (String × PlotEntry))

/-- The configuration consumed by `get_gui`: the ordered `cfg.models`
mapping. -/
structure Cfg where
  models : List (String × ModelConf)

/-- The `for model_name, model_conf in cfg.models.items()` loop of gui.py
lines 98-146, carrying the Python local variable `model` explicitly: a failed
instantiation only prints, so the local keeps its previous value (`none` if no
model was ever instantiated, in which case `len(model)` raises
`UnboundLocalError`); a zero-length model is skipped with `continue`;
otherwise `model_params` is resolved, the subplot figure is built, and the tab
and `graphs` entry are appended. -/
def get_gui_loop : Option Model → List (String × ModelConf) →
    Except BuildErr (List Tab × List GraphEntry)
  | _, [] => Except.ok ([], [])
  | prev, (model_name, model_conf) :: rest =>
    match (match model_conf.inst with | some m => some m | none => prev) with
    | none => Except.error BuildErr.nameError
    | some model =>
      if model.members.length = 0 then
        get_gui_loop (some model) rest
      else
        match resolve_model_params model model_conf.plot with
        | Except.error e => Except.error e
        | Except.ok model_params =>
          match make_kamodo_subplots model (model_params.map (fun p => p.1)) model_params with
          | Except.error e => Except.error e
          | Except.ok fig_subplots =>
            match get_gui_loop (some model) rest with
            | Except.error e => Except.error e
            | Except.ok (tabs, graphs) =>
              Except.ok
                ({ label := model_name,
                   checklist_id := "checklist-" ++ model_name,
                   options := dependent_labels model,
                   selected := selected_labels model model_params,
                   graph_id := "graph-" ++ model_name,
                   figure := fig_subplots } :: tabs,
                 { graph_id := "graph-" ++ model_name,
                   model := model,
                   model_params := model_params,
                   model_name := model_name } :: graphs)

/-- The app state `get_gui` returns: tabs, the `graphs` dict, and the
callbacks registered by the loop at lines 153-154. -/
structure Gui where
  tabs : List Tab
  graphs : List GraphEntry
  callbacks : List Callback

/-- `get_gui(cfg)` (gui.py 74-156), restricted to the observable model/tab/
callback content. -/
def get_gui (cfg : Cfg) : Except BuildErr Gui :=
  match get_gui_loop none cfg.models with
  | Except.error e => Except.error e
  | Except.ok (tabs, graphs) =>
    Except.ok { tabs := tabs, graphs := graphs, callbacks := register_subplot_callbacks graphs }

/-- `np.linspace(lo, hi, num)`: `num` evenly spaced points from `lo` to `hi`
inclusive. -/
def linspace (lo hi : ℚ) (num : ℕ) : List ℚ :=
  if num ≤ 1 then (List.range num).map (fun _ => lo)
  else (List.range num).map (fun i : ℕ => lo + (hi - lo) * (i : ℚ) / ((num : ℚ) - 1))

/-- The keyword arguments built inside `update_figure` (gui.py 215-217):
for the i-th parameter key, a linspace over the i-th range-slider value pair
with the i-th point-count input. -/
def mkPlotArgs (param_keys : List String) (inputs : List ((ℚ × ℚ) × ℕ)) : ParamMap :=
  (param_keys.zip inputs).map (fun p => (p.1, linspace p.2.1.1 p.2.1.2 p.2.2))

/-- `go.Figure(fig)` (gui.py 224): a plain figure holding the evaluated
figure's traces, with no subplot grid. -/
def go_Figure (kfig : KFig) : Fig :=
  { rows := 1, cols := 1, traces := kfig.data.map (fun t => (t, 1, 1)) }

/-- The range-slider callback `update_figure` (gui.py 214-224): rebuild the
parameter grids from the slider and count inputs, re-evaluate the single
variable the callback was registered for, and return the resulting figure as
the graph's whole `figure` property; there is no exception handler. -/
def update_figure (model : Model) (varname : String) (param_keys : List String)
    (inputs : List ((ℚ × ℚ) × ℕ)) : Except BuildErr Fig :=
  match figure model varname "ij" (mkPlotArgs param_keys inputs) with
  | some kfig => Except.ok (go_Figure kfig)
  | none => Except.error BuildErr.uncaught

/-- Delivery of one range-edit event to the callback registered by
`generate_range_slider_callback`: the result is applied to the
`Output(graph_id, "figure")` target. -/
def range_callback_step (st : GraphStates) (graph_id : String) (model : Model)
    (varname : String) (param_keys : List String) (inputs : List ((ℚ × ℚ) × ℕ)) :
    GraphStates :=
  apply_output st graph_id (update_figure model varname param_keys inputs)

/-! ## General lemmas -/

theorem checklist_id_injective (a b : String) (h : a ≠ b) :
    "checklist-" ++ a ≠ "checklist-" ++ b := by
  intro hc
  apply h
  have hd := congrArg String.data hc
  simp only [String.data_append] at hd
  exact String.ext (List.append_cancel_left hd)

theorem dispatch_cons (cb : Callback) (cbs : List Callback) (input_id : String)
    (value : List String) (st : GraphStates) :
    dispatch (cb :: cbs) input_id value st
      = dispatch cbs input_id value
          (if cb.input_id = input_id then apply_output st cb.output_id (cb.handler value)
           else st) := rfl

theorem getState_setState_ne (st : GraphStates) (g g' : String) (f : Fig)
    (h : g' ≠ g) : getState (setState st g f) g' = getState st g' := by
  induction st with
  | nil => rfl
  | cons p rest ih =>
    simp only [setState, List.map_cons]
    by_cases hp : p.1 = g
    · rw [if_pos hp, getState, getState, List.find?_cons_of_neg, List.find?_cons_of_neg]
      · exact ih
      · simp only [decide_eq_true_eq]
        rw [hp]
        exact fun hg => h hg.symm
      · simp only [decide_eq_true_eq]
        exact fun hg => h hg.symm
    · rw [if_neg hp]
      by_cases hq : p.1 = g'
      · rw [getState, getState, List.find?_cons_of_pos, List.find?_cons_of_pos]
        · simp only [decide_eq_true_eq]
          exact hq
        · simp only [decide_eq_true_eq]
          exact hq
      · rw [getState, getState, List.find?_cons_of_neg, List.find?_cons_of_neg]
        · exact ih
        · simp only [decide_eq_true_eq]
          exact hq
        · simp only [decide_eq_true_eq]
          exact hq

theorem dispatch_all_rejected (cbs : List Callback) (input_id : String)
    (value : List String) (st : GraphStates)
    (h : ∀ cb ∈ cbs, ∃ e, cb.handler value = Except.error e) :
    dispatch cbs input_id value st = st := by
  induction cbs generalizing st with
  | nil => rfl
  | cons cb rest ih =>
    rw [dispatch_cons]
    have hstep :
        (if cb.input_id = input_id then
          apply_output st cb.output_id (cb.handler value) else st) = st := by
      split
      · obtain ⟨e, he⟩ := h cb (List.mem_cons_self cb rest)
        rw [he]
        rfl
      · rfl
    rw [hstep]
    exact ih st (fun c hc => h c (List.mem_cons_of_mem cb hc))

/-! ## C9 -/

/-- C9: Domain materialization (`np.linspace` in `update_figure`, gui.py 217)
produces `count` evenly spaced points from `min` to `max` inclusive by linear
interpolation; in particular `linspace 0 10 5 = [0, 2.5, 5, 7.5, 10]`. -/
theorem linspace_materialization :
    (∀ (lo hi : ℚ) (num : ℕ), 2 ≤ num →
      (linspace lo hi num).length = num ∧
      (∀ i : ℕ, i < num →
        (linspace lo hi num).getD i 0 = lo + (hi - lo) * (i : ℚ) / ((num : ℚ) - 1)) ∧
      (linspace lo hi num).getD 0 0 = lo ∧
      (linspace lo hi num).getD (num - 1) 0 = hi ∧
      (∀ i : ℕ, i + 1 < num →
        (linspace lo hi num).getD (i + 1) 0 - (linspace lo hi num).getD i 0
          = (hi - lo) / ((num : ℚ) - 1))) ∧
    linspace 0 10 5 = [0, 5/2, 5, 15/2, 10] := by
  constructor
  · intro lo hi num hnum
    have h1 : ¬ num ≤ 1 := by omega
    have hlin : linspace lo hi num
        = (List.range num).map (fun i : ℕ => lo + (hi - lo) * (i : ℚ) / ((num : ℚ) - 1)) := by
      rw [linspace, if_neg h1]
    have hget : ∀ i : ℕ, i < num →
        (linspace lo hi num).getD i 0 = lo + (hi - lo) * (i : ℚ) / ((num : ℚ) - 1) := by
      intro i hi2
      rw [hlin, List.getD_eq_getElem?_getD, List.getElem?_map, List.getElem?_range hi2]
      rfl
    have hgt : (1 : ℚ) < (num : ℚ) := by exact_mod_cast (show 1 < num by omega)
    have hne : ((num : ℚ) - 1) ≠ 0 := sub_ne_zero_of_ne (ne_of_gt hgt)
    refine ⟨by rw [hlin]; rw [List.length_map, List.length_range], hget, ?_, ?_, ?_⟩
    · rw [hget 0 (by omega)]
      simp
    · rw [hget (num - 1) (by omega)]
      have hcast : ((num - 1 : ℕ) : ℚ) = (num : ℚ) - 1 := by
        have h3 : 1 ≤ num := by omega
        push_cast [h3]
        ring
      rw [hcast]
      field_simp
    · intro i hi2
      rw [hget (i + 1) hi2, hget i (by omega)]
      push_cast
      ring
  · show linspace 0 10 5 = _
    rw [linspace, if_neg (by norm_num)]
    norm_num [List.range_succ]

/-- Witness for C9 at `Domain{min=0, max=10, count=5}`. -/
theorem linspace_materialization_witness :
    (linspace 0 10 5).length = 5 ∧ (linspace 0 10 5).getD 0 0 = 0 ∧
    (linspace 0 10 5).getD 4 0 = 10 := by
  have h := linspace_materialization.1 0 10 5 (by norm_num)
  exact ⟨h.1, h.2.2.1, h.2.2.2.1⟩

/-! ## C5 -/

/-- C5: a selection-change event with an empty membership list is rejected as
a deliberate no-op: `update_subplot` raises `PreventUpdate` (gui.py 183), so
no recompute happens and every graph's previous Figure is retained unchanged
after dispatching the event through the registered callbacks. -/
theorem empty_selection_rejected :
    (∀ (model : Model) (model_params : List (String × ParamMap)),
      update_subplot model model_params [] = Except.error BuildErr.preventUpdate) ∧
    ∀ (graphs : List GraphEntry) (input_id : String) (st : GraphStates),
      dispatch (register_subplot_callbacks graphs) input_id [] st = st := by
  constructor
  · intro model ps
    rfl
  · intro graphs input_id st
    apply dispatch_all_rejected
    intro cb hcb
    rw [register_subplot_callbacks] at hcb
    obtain ⟨g, _, hg⟩ := List.mem_map.mp hcb
    exact ⟨BuildErr.preventUpdate, by rw [← hg]; rfl⟩

/-! ## C1 -/

/-- C1: for a pair of models A and B registered through the loop at gui.py
153-154, the callback registered for A holds A's own model, graph id and
parameter map (they are passed by value into `generate_subplot_callback`, not
captured from the loop variable), so dispatching A's selection event applies
A's own `update_subplot` result to A's graph alone and leaves B's Figure
unchanged. -/
theorem subplot_callback_closure_isolation
    (gidA gidB mnA mnB : String) (mA mB : Model)
    (psA psB : List (String × ParamMap)) (vns : List String) (st : GraphStates)
    (hmn : mnA ≠ mnB) (hgid : gidB ≠ gidA) :
    dispatch
        (register_subplot_callbacks
          [{ graph_id := gidA, model := mA, model_params := psA, model_name := mnA },
           { graph_id := gidB, model := mB, model_params := psB, model_name := mnB }])
        ("checklist-" ++ mnA) vns st
      = apply_output st gidA (update_subplot mA psA vns) ∧
    getState
        (dispatch
          (register_subplot_callbacks
            [{ graph_id := gidA, model := mA, model_params := psA, model_name := mnA },
             { graph_id := gidB, model := mB, model_params := psB, model_name := mnB }])
          ("checklist-" ++ mnA) vns st) gidB
      = getState st gidB := by
  have h1 :
      dispatch
          (register_subplot_callbacks
            [{ graph_id := gidA, model := mA, model_params := psA, model_name := mnA },
             { graph_id := gidB, model := mB, model_params := psB, model_name := mnB }])
          ("checklist-" ++ mnA) vns st
        = apply_output st gidA (update_subplot mA psA vns) := by
    rw [register_subplot_callbacks, List.map_cons, List.map_cons, List.map_nil,
      dispatch_cons, dispatch_cons]
    simp only [generate_subplot_callback]
    rw [if_neg (checklist_id_injective mnB mnA (Ne.symm hmn))]
    simp only [if_true]
    rfl
  refine ⟨h1, ?_⟩
  rw [h1]
  cases hres : update_subplot mA psA vns with
  | ok f =>
    rw [apply_output]
    exact getState_setState_ne st gidA gidB f hgid
  | error e => rfl

/-- Concrete two-model scenario for C1: models A and B each own a Dependent
variable named "f" over parameter "x". -/
def mW1 : Model :=
  { members :=
    [ { name := "x", kind := VarKind.independent, callable := fun _ => none,
        defaults := none },
      { name := "f", kind := VarKind.dependent,
        callable := fun g => some (g.map (fun _ => 1)),
        defaults := some [("x", [0, 1])] } ] }

def mW2 : Model :=
  { members :=
    [ { name := "x", kind := VarKind.independent, callable := fun _ => none,
        defaults := none },
      { name := "f", kind := VarKind.dependent,
        callable := fun g => some (g.map (fun _ => 2)),
        defaults := some [("x", [0, 1])] } ] }

def psW : List (String × ParamMap) := [("f", [("x", [0, 1])])]

def stW : GraphStates :=
  [("graph-A", { rows := 1, cols := 1, traces := [] }),
   ("graph-B", { rows := 1, cols := 1, traces := [] })]

/-- Witness for C1: two concrete models A and B; triggering A's checklist
publishes A's recomputed Figure to A's graph and leaves B's Figure exactly as
it was. -/
theorem subplot_callback_closure_isolation_witness :
    ("A" : String) ≠ "B" ∧ ("graph-B" : String) ≠ "graph-A" ∧
    dispatch
        (register_subplot_callbacks
          [{ graph_id := "graph-A", model := mW1, model_params := psW, model_name := "A" },
           { graph_id := "graph-B", model := mW2, model_params := psW, model_name := "B" }])
        ("checklist-" ++ "A") ["f"] stW
      = apply_output stW "graph-A" (update_subplot mW1 psW ["f"]) ∧
    getState
        (dispatch
          (register_subplot_callbacks
            [{ graph_id := "graph-A", model := mW1, model_params := psW, model_name := "A" },
             { graph_id := "graph-B", model := mW2, model_params := psW, model_name := "B" }])
          ("checklist-" ++ "A") ["f"] stW) "graph-B"
      = getState stW "graph-B" := by
  have h := subplot_callback_closure_isolation "graph-A" "graph-B" "A" "B" mW1 mW2
    psW psW ["f"] stW (by decide) (by decide)
  exact ⟨by decide, by decide, h.1, h.2⟩

/-! ## C6 -/

/-- The trace that subplot composition adds for one variable when its
evaluation succeeds. -/
def traceOfD (model : Model) (model_params : List (String × ParamMap)) (v : String) :
    Trace :=
  (figureTrace model v "ij" (getParams model_params v)).getD default

theorem figureTrace_some (m : Model) (v ind : String) (ps : ParamMap) (t : Trace)
    (h : figureTrace m v ind ps = some t) :
    ∃ d vals, model_lookup m v = some d ∧ d.kind = VarKind.dependent ∧
      d.callable (paramGrid ps) = some vals ∧
      t = { var := v, indexing := ind, grid := paramGrid ps, values := vals } := by
  cases hl : model_lookup m v with
  | none =>
    simp only [figureTrace, hl] at h
    exact Option.noConfusion h
  | some d =>
    cases hk : d.kind with
    | independent =>
      simp only [figureTrace, hl, hk] at h
      exact Option.noConfusion h
    | dependent =>
      cases hc : d.callable (paramGrid ps) with
      | none =>
        simp only [figureTrace, hl, hk, hc, Option.map_none'] at h
        exact Option.noConfusion h
      | some vals =>
        simp only [figureTrace, hl, hk, hc, Option.map_some', Option.some.injEq] at h
        exact ⟨d, vals, rfl, hk, hc, h.symm⟩

theorem subplots_loop_ok (model : Model) (ps : List (String × ParamMap))
    (l : List String) :
    ∀ (k : ℕ) (fig : Fig),
      (∀ v ∈ l, (figureTrace model v "ij" (getParams ps v)).isSome) →
      subplots_loop model ps (l.enumFrom k) fig
        = Except.ok { fig with traces :=
            fig.traces ++ (l.enumFrom k).map (fun p => (traceOfD model ps p.2, p.1 + 1, 1)) } := by
  induction l with
  | nil =>
    intro k fig _
    simp [subplots_loop, List.enumFrom]
  | cons v rest ih =>
    intro k fig h
    obtain ⟨t, ht⟩ := Option.isSome_iff_exists.mp (h v (List.mem_cons_self v rest))
    have hfig : figure model v "ij" (getParams ps v) = some { data := [t] } := by
      rw [figure, ht]
      rfl
    have htr : traceOfD model ps v = t := by
      rw [traceOfD, ht]
      rfl
    show subplots_loop model ps ((k, v) :: rest.enumFrom (k + 1)) fig = _
    rw [subplots_loop, hfig]
    show subplots_loop model ps (rest.enumFrom (k + 1)) (add_trace fig t (k + 1) 1) = _
    rw [ih (k + 1) (add_trace fig t (k + 1) 1)
      (fun w hw => h w (List.mem_cons_of_mem v hw))]
    simp [add_trace, htr, List.enumFrom]

/-- C6: for a non-empty ordered subset of variables whose evaluations succeed,
`make_kamodo_subplots` produces a Figure with one row per name in order: the
i-th variable is evaluated by its callable over the cross product of its
parameter samples with `ij` grid semantics, and its trace is placed at row
`i+1`, column 1. -/
theorem make_kamodo_subplots_spec (model : Model) (var_names : List String)
    (model_params : List (String × ParamMap))
    (hne : var_names ≠ [])
    (hok : ∀ v ∈ var_names, (figureTrace model v "ij" (getParams model_params v)).isSome) :
    make_kamodo_subplots model var_names model_params
      = Except.ok
          { rows := var_names.length, cols := 1,
            traces := var_names.enum.map
              (fun p => (traceOfD model model_params p.2, p.1 + 1, 1)) } ∧
    ∀ v ∈ var_names, ∃ d vals,
      model_lookup model v = some d ∧ d.kind = VarKind.dependent ∧
      d.callable (paramGrid (getParams model_params v)) = some vals ∧
      traceOfD model model_params v
        = { var := v, indexing := "ij", grid := paramGrid (getParams model_params v),
            values := vals } := by
  constructor
  · have hlen : ¬ var_names.length = 0 := by
      intro h0
      exact hne (List.length_eq_zero.mp h0)
    rw [make_kamodo_subplots, make_subplots, if_neg hlen]
    show subplots_loop model model_params (var_names.enumFrom 0) _ = _
    rw [subplots_loop_ok model model_params var_names 0 _ hok]
    rfl
  · intro v hv
    obtain ⟨t, ht⟩ := Option.isSome_iff_exists.mp (hok v hv)
    obtain ⟨d, vals, hl, hk, hc, hteq⟩ :=
      figureTrace_some model v "ij" (getParams model_params v) t ht
    refine ⟨d, vals, hl, hk, hc, ?_⟩
    rw [traceOfD, ht]
    simpa using hteq

/-- Concrete model for the C6 witness. -/
def mW6 : Model :=
  { members :=
    [ { name := "x", kind := VarKind.independent, callable := fun _ => none,
        defaults := none },
      { name := "f", kind := VarKind.dependent,
        callable := fun g => some (g.map (fun _ => 1)),
        defaults := some [("x", [0, 1])] },
      { name := "g", kind := VarKind.dependent,
        callable := fun g => some (g.map (fun _ => 2)),
        defaults := some [("x", [0, 1])] } ] }

def psW6 : List (String × ParamMap) := [("f", [("x", [0, 1])]), ("g", [("x", [0, 1])])]

/-- Witness for C6: both variables of a concrete model evaluate successfully
and the composed Figure has f's trace at row 1 and g's trace at row 2. -/
theorem make_kamodo_subplots_spec_witness :
    (["f", "g"] : List String) ≠ [] ∧
    make_kamodo_subplots mW6 ["f", "g"] psW6
      = Except.ok
          { rows := 2, cols := 1,
            traces := [(traceOfD mW6 psW6 "f", 1, 1), (traceOfD mW6 psW6 "g", 2, 1)] } := by
  refine ⟨by decide, ?_⟩
  exact (make_kamodo_subplots_spec mW6 ["f", "g"] psW6 (by decide) (by decide)).1

/-! ## C2 -/

theorem subplots_loop_fails (model : Model) (ps : List (String × ParamMap))
    (l : List String) :
    ∀ (k : ℕ) (fig : Fig),
      (∃ v ∈ l, figureTrace model v "ij" (getParams ps v) = none) →
      subplots_loop model ps (l.enumFrom k) fig = Except.error BuildErr.preventUpdate := by
  induction l with
  | nil =>
    intro k fig h
    obtain ⟨v, hv, _⟩ := h
    exact absurd hv (List.not_mem_nil v)
  | cons v rest ih =>
    intro k fig h
    show subplots_loop model ps ((k, v) :: rest.enumFrom (k + 1)) fig = _
    cases hv : figureTrace model v "ij" (getParams ps v) with
    | none =>
      have hfig : figure model v "ij" (getParams ps v) = none := by
        rw [figure, hv]
        rfl
      rw [subplots_loop, hfig]
    | some t =>
      have hfig : figure model v "ij" (getParams ps v) = some { data := [t] } := by
        rw [figure, hv]
        rfl
      rw [subplots_loop, hfig]
      show subplots_loop model ps (rest.enumFrom (k + 1)) (add_trace fig t (k + 1) 1) = _
      obtain ⟨w, hw, hwn⟩ := h
      rcases List.mem_cons.mp hw with hwv | hwrest
      · rw [hwv] at hwn
        rw [hwn] at hv
        exact Option.noConfusion hv
      · exact ih (k + 1) (add_trace fig t (k + 1) 1) ⟨w, hwrest, hwn⟩

/-- C2 amended: if evaluating one variable raises, the failure is reported and
the ENTIRE subplot composition is aborted by `raise PreventUpdate` (gui.py
168-171) — no Figure is produced, not even for the variables that evaluate
successfully; inside the selection callback this means every graph keeps its
previous Figure (the model's tab stays, but no new Figure with the healthy
rows appears). -/
theorem make_kamodo_subplots_failure_aborts (model : Model)
    (model_params : List (String × ParamMap)) (var_names : List String)
    (hfail : ∃ v ∈ var_names, figureTrace model v "ij" (getParams model_params v) = none) :
    make_kamodo_subplots model var_names model_params
      = Except.error BuildErr.preventUpdate ∧
    ∀ (st : GraphStates) (gid mn : String),
      dispatch [generate_subplot_callback gid model mn model_params]
        ("checklist-" ++ mn) var_names st = st := by
  have h1 : make_kamodo_subplots model var_names model_params
      = Except.error BuildErr.preventUpdate := by
    have hne : var_names ≠ [] := by
      obtain ⟨v, hv, _⟩ := hfail
      exact List.ne_nil_of_mem hv
    have hlen : ¬ var_names.length = 0 := by
      intro h0
      exact hne (List.length_eq_zero.mp h0)
    rw [make_kamodo_subplots, make_subplots, if_neg hlen]
    show subplots_loop model model_params (var_names.enumFrom 0) _ = _
    exact subplots_loop_fails model model_params var_names 0 _ hfail
  refine ⟨h1, ?_⟩
  intro st gid mn
  apply dispatch_all_rejected
  intro cb hcb
  rw [List.mem_singleton] at hcb
  subst hcb
  refine ⟨BuildErr.preventUpdate, ?_⟩
  show update_subplot model model_params var_names = _
  rw [update_subplot]
  split
  · exact h1
  · rfl

/-- Concrete model for C2: `f` raises on every input, `g` evaluates fine. -/
def mX2 : Model :=
  { members :=
    [ { name := "f", kind := VarKind.dependent, callable := fun _ => none,
        defaults := some [("x", [0, 1])] },
      { name := "g", kind := VarKind.dependent,
        callable := fun gr => some (gr.map (fun _ => 3)),
        defaults := some [("x", [0, 1])] } ] }

def psX2 : List (String × ParamMap) := [("f", [("x", [0, 1])]), ("g", [("x", [0, 1])])]

/-- C2 counterexample: with `f` raising and `g` healthy, `make_kamodo_subplots`
does NOT produce a Figure containing g's row — it aborts the whole composition
with `PreventUpdate`, even though g's evaluation succeeds. -/
theorem make_kamodo_subplots_no_row_isolation :
    make_kamodo_subplots mX2 ["f", "g"] psX2 = Except.error BuildErr.preventUpdate ∧
    (figureTrace mX2 "g" "ij" (getParams psX2 "g")).isSome ∧
    ∀ F : Fig, make_kamodo_subplots mX2 ["f", "g"] psX2 ≠ Except.ok F := by
  refine ⟨rfl, rfl, ?_⟩
  intro F h
  rw [show make_kamodo_subplots mX2 ["f", "g"] psX2
      = Except.error BuildErr.preventUpdate from rfl] at h
  exact Except.noConfusion h

/-- Witness for the amended C2 on the concrete model: the composition aborts
and a dispatched selection event leaves the graph state untouched. -/
theorem make_kamodo_subplots_failure_aborts_witness :
    (∃ v ∈ (["f", "g"] : List String),
      figureTrace mX2 v "ij" (getParams psX2 v) = none) ∧
    make_kamodo_subplots mX2 ["f", "g"] psX2 = Except.error BuildErr.preventUpdate ∧
    dispatch [generate_subplot_callback "graph-M" mX2 "M" psX2]
      ("checklist-" ++ "M") ["f", "g"]
      [("graph-M", { rows := 1, cols := 1, traces := [] })]
      = [("graph-M", { rows := 1, cols := 1, traces := [] })] := by
  have h := make_kamodo_subplots_failure_aborts mX2 psX2 ["f", "g"]
    ⟨"f", by decide, rfl⟩
  exact ⟨⟨"f", by decide, rfl⟩, h.1,
    h.2 [("graph-M", { rows := 1, cols := 1, traces := [] })] "graph-M" "M"⟩

/-! ## C10 -/

/-- C10: when instantiation of a model raises (gui.py 101-105 has no
`continue` in the `except`), the loop iteration is NOT skipped: if no model
was instantiated before, the use of the unbound local `model` at line 107
raises and aborts the whole build; otherwise the iteration behaves exactly as
if the failed entry had specified the previously instantiated model — its tab,
checklist and figure are built from that stale model's variables. -/
theorem instantiation_failure_not_skipped (model_name : String) (conf : ModelConf)
    (hfail : conf.inst = none) :
    (∀ rest, get_gui_loop none ((model_name, conf) :: rest)
      = Except.error BuildErr.nameError) ∧
    (∀ rest, get_gui { models := (model_name, conf) :: rest }
      = Except.error BuildErr.nameError) ∧
    (∀ (m : Model) (rest : List (String × ModelConf)),
      get_gui_loop (some m) ((model_name, conf) :: rest)
        = get_gui_loop (some m)
            ((model_name, { inst := some m, plot := conf.plot }) :: rest)) := by
  refine ⟨?_, ?_, ?_⟩
  · intro rest
    rw [get_gui_loop, hfail]
  · intro rest
    rw [get_gui, get_gui_loop, hfail]
  · intro m rest
    rw [get_gui_loop, hfail]
    rfl

/-- Stale-model scenario for C10: model "A" instantiates with one Dependent
variable `f`; model "B" fails to instantiate but carries its own plot config. -/
def mX10 : Model :=
  { members :=
    [ { name := "f", kind := VarKind.dependent,
        callable := fun gr => some (gr.map (fun _ => 4)),
        defaults := some [("x", [0, 1])] } ] }

def confX10A : ModelConf :=
  { inst := some mX10, plot := some [("f", some [("x", [0, 1])])] }

def confX10B : ModelConf :=
  { inst := none, plot := some [("f", some [("x", [0, 1])])] }

/-- Witness for C10: a first-model failure aborts the build with the unbound
local; and after a successful model "A", the failed model "B" still gets a
tab whose checklist options are A's variables. -/
theorem instantiation_failure_not_skipped_witness :
    confX10B.inst = none ∧
    get_gui { models := [("B", confX10B)] } = Except.error BuildErr.nameError ∧
    get_gui_loop (some mX10) [("B", confX10B)]
      = get_gui_loop (some mX10) [("B", { inst := some mX10, plot := confX10B.plot })] ∧
    (get_gui_loop none [("A", confX10A), ("B", confX10B)]).map
        (fun p => p.1.map (fun t => (t.label, t.options)))
      = Except.ok [("A", ["f"]), ("B", ["f"])] := by
  have h := instantiation_failure_not_skipped "B" confX10B rfl
  exact ⟨rfl, h.2.1 [], h.2.2 mX10 [], rfl⟩

/-! ## C3 -/

/-- C3: the claim says a model whose instantiation raises is skipped and the
remaining models are still processed; the code (gui.py 101-108) catches the
exception but does not skip the iteration, so with a failing FIRST model the
unbound local `model` aborts the entire build — here evaluated on a concrete
configuration whose first model fails and whose second model is perfectly
healthy: nothing at all is built. -/
theorem get_gui_inst_failure_aborts :
    get_gui { models := [("bad", { inst := none, plot := none }),
                         ("good", confX10A)] }
      = Except.error BuildErr.nameError ∧
    ∀ g : Gui, get_gui { models := [("bad", { inst := none, plot := none }),
                                    ("good", confX10A)] } ≠ Except.ok g := by
  refine ⟨rfl, ?_⟩
  intro g h
  rw [show get_gui { models := [("bad", { inst := none, plot := none }),
        ("good", confX10A)] } = Except.error BuildErr.nameError from rfl] at h
  exact Except.noConfusion h

/-! ## C4 -/

/-- C4 amended: when a plot-config entry is null and the variable lacks
declared defaults (or is absent from the model), the `except` at gui.py
120-123 prints and calls `sys.exit()` — this aborts the ENTIRE build, not just
the one model: no remaining model in the registry is processed and no UI is
produced at all. -/
theorem missing_defaults_exits (model : Model) (v : String)
    (rest : List (String × PlotEntry))
    (hmiss : default_entry model v = none) :
    resolve_plot_entries model ((v, none) :: rest) = Except.error BuildErr.sysExit ∧
    ∀ (model_name : String) (prev : Option Model) (more : List (String × ModelConf)),
      model.members ≠ [] →
      get_gui_loop prev
          ((model_name, { inst := some model, plot := some ((v, none) :: rest) }) :: more)
        = Except.error BuildErr.sysExit := by
  have h1 : resolve_plot_entries model ((v, none) :: rest)
      = Except.error BuildErr.sysExit := by
    rw [resolve_plot_entries, hmiss]
  refine ⟨h1, ?_⟩
  intro model_name prev more hne
  have hlen : ¬ model.members.length = 0 := by
    intro h0
    exact hne (List.length_eq_zero.mp h0)
  rw [get_gui_loop]
  show (if model.members.length = 0 then _ else _) = _
  rw [if_neg hlen]
  show (match resolve_model_params model (some ((v, none) :: rest)) with
    | Except.error e => Except.error e
    | Except.ok model_params => _) = _
  rw [show resolve_model_params model (some ((v, none) :: rest))
      = Except.error BuildErr.sysExit from h1]

/-- Concrete scenario for C4: model "A" declares `h` as Dependent without
defaults and its plot config has a null entry for `h`; model "B" is healthy. -/
def mX4 : Model :=
  { members :=
    [ { name := "h", kind := VarKind.dependent,
        callable := fun gr => some (gr.map (fun _ => 5)),
        defaults := none } ] }

def cfgX4 : Cfg :=
  { models :=
    [("A", { inst := some mX4, plot := some [("h", none)] }),
     ("B", { inst := some mX10, plot := some [("f", some [("x", [0, 1])])] })] }

/-- C4 counterexample: default resolution failure for model A's variable `h`
kills the whole build via `sys.exit` — the healthy model B is never processed
and no UI exists, contradicting "the remaining models in the registry are
still processed". -/
theorem get_gui_missing_defaults_kills_build :
    get_gui cfgX4 = Except.error BuildErr.sysExit ∧
    ∀ g : Gui, get_gui cfgX4 ≠ Except.ok g := by
  refine ⟨rfl, ?_⟩
  intro g h
  rw [show get_gui cfgX4 = Except.error BuildErr.sysExit from rfl] at h
  exact Except.noConfusion h

/-- Witness for the amended C4 on the concrete model. -/
theorem missing_defaults_exits_witness :
    default_entry mX4 "h" = none ∧ mX4.members ≠ [] ∧
    resolve_plot_entries mX4 [("h", none)] = Except.error BuildErr.sysExit ∧
    get_gui_loop none
        [("A", { inst := some mX4, plot := some [("h", none)] }),
         ("B", { inst := some mX10, plot := some [("f", some [("x", [0, 1])])] })]
      = Except.error BuildErr.sysExit := by
  have h := missing_defaults_exits mX4 "h" [] rfl
  exact ⟨rfl, List.cons_ne_nil _ _, h.1,
    h.2 "A" none [("B", { inst := some mX10, plot := some [("f", some [("x", [0, 1])])] })]
      (List.cons_ne_nil _ _)⟩

/-! ## C7 -/

/-- C7 amended: a range-edit event makes `update_figure` (gui.py 214-224)
re-evaluate only the affected variable over freshly materialized linspace
grids, but the result is published as the graph's ENTIRE `figure` property: a
plain figure containing only that variable's trace, so the rows of the other
currently visible variables of the same graph are dropped rather than left
untouched. Only the figures of OTHER graph components are unaffected. -/
theorem update_figure_replaces_whole_figure (model : Model) (varname : String)
    (param_keys : List String) (inputs : List ((ℚ × ℚ) × ℕ)) (t : Trace)
    (hok : figureTrace model varname "ij" (mkPlotArgs param_keys inputs) = some t) :
    update_figure model varname param_keys inputs
      = Except.ok { rows := 1, cols := 1, traces := [(t, 1, 1)] } ∧
    t.var = varname ∧
    t.grid = paramGrid (mkPlotArgs param_keys inputs) ∧
    ∀ (st : GraphStates) (gid gid' : String), gid' ≠ gid →
      getState (range_callback_step st gid model varname param_keys inputs) gid'
        = getState st gid' := by
  have hfig : figure model varname "ij" (mkPlotArgs param_keys inputs)
      = some { data := [t] } := by
    rw [figure, hok]
    rfl
  have h1 : update_figure model varname param_keys inputs
      = Except.ok { rows := 1, cols := 1, traces := [(t, 1, 1)] } := by
    rw [update_figure, hfig]
    rfl
  obtain ⟨d, vals, _, _, _, hteq⟩ :=
    figureTrace_some model varname "ij" (mkPlotArgs param_keys inputs) t hok
  refine ⟨h1, by rw [hteq], by rw [hteq], ?_⟩
  intro st gid gid' hne
  rw [range_callback_step, h1, apply_output]
  exact getState_setState_ne st gid gid' _ hne

/-- Concrete scenario for C7: a graph currently shows rows for both `f` and
`g`; a range edit for `f` arrives. -/
def mX7 : Model :=
  { members :=
    [ { name := "x", kind := VarKind.independent, callable := fun _ => none,
        defaults := none },
      { name := "f", kind := VarKind.dependent, callable := fun _ => some [7],
        defaults := some [("x", [0, 1])] },
      { name := "g", kind := VarKind.dependent, callable := fun _ => some [8],
        defaults := some [("x", [0, 1])] } ] }

def psX7 : List (String × ParamMap) := [("f", [("x", [0, 1])]), ("g", [("x", [0, 1])])]

/-- C7 counterexample: the graph's Figure had rows for `f` and `g`; after the
range-edit callback for `f` fires, the published Figure contains only `f`'s
trace — `g`'s row is gone, contradicting "leaving the rows of all other
currently visible variables untouched". -/
theorem range_event_drops_other_rows :
    (make_kamodo_subplots mX7 ["f", "g"] psX7).map
        (fun F => F.traces.map (fun q => q.1.var))
      = Except.ok ["f", "g"] ∧
    (update_figure mX7 "f" ["x"] [((0, 10), 5)]).map
        (fun F => F.traces.map (fun q => q.1.var))
      = Except.ok ["f"] ∧
    (make_kamodo_subplots mX7 ["f", "g"] psX7).map
        (fun F0 =>
          (range_callback_step [("graph-M", F0)] "graph-M" mX7 "f" ["x"] [((0, 10), 5)]).map
            (fun p => (p.1, p.2.traces.map (fun q => q.1.var))))
      = Except.ok [("graph-M", ["f"])] := by
  exact ⟨rfl, rfl, rfl⟩

/-- Witness for the amended C7 on the concrete model. -/
theorem update_figure_replaces_whole_figure_witness :
    figureTrace mX7 "f" "ij" (mkPlotArgs ["x"] [((0, 10), 5)])
      = some { var := "f", indexing := "ij",
               grid := paramGrid (mkPlotArgs ["x"] [((0, 10), 5)]), values := [7] } ∧
    update_figure mX7 "f" ["x"] [((0, 10), 5)]
      = Except.ok
          { rows := 1, cols := 1,
            traces := [({ var := "f", indexing := "ij",
                          grid := paramGrid (mkPlotArgs ["x"] [((0, 10), 5)]),
                          values := [7] }, 1, 1)] } ∧
    getState
        (range_callback_step
          [("graph-M", { rows := 1, cols := 1, traces := [] }),
           ("graph-N", { rows := 1, cols := 1, traces := [] })]
          "graph-M" mX7 "f" ["x"] [((0, 10), 5)]) "graph-N"
      = getState
          [("graph-M", { rows := 1, cols := 1, traces := [] }),
           ("graph-N", { rows := 1, cols := 1, traces := [] })] "graph-N" := by
  have h := update_figure_replaces_whole_figure mX7 "f" ["x"] [((0, 10), 5)]
    { var := "f", indexing := "ij",
      grid := paramGrid (mkPlotArgs ["x"] [((0, 10), 5)]), values := [7] } rfl
  exact ⟨rfl, h.1,
    h.2.2.2 [("graph-M", { rows := 1, cols := 1, traces := [] }),
             ("graph-N", { rows := 1, cols := 1, traces := [] })]
      "graph-M" "graph-N" (by decide)⟩

/-! ## C8 -/

theorem resolve_literal_entries (model : Model) :
    ∀ conf : List (String × PlotEntry), (∀ e ∈ conf, (e.2).isSome) →
      resolve_plot_entries model conf
        = Except.ok (conf.map (fun e => (e.1, (e.2).getD []))) := by
  intro conf
  induction conf with
  | nil => intro _; rfl
  | cons e rest ih =>
    intro h
    obtain ⟨args, hargs⟩ :=
      Option.isSome_iff_exists.mp (h e (List.mem_cons_self e rest))
    have hrest := ih (fun x hx => h x (List.mem_cons_of_mem e hx))
    cases e with
    | mk v entry =>
      simp only at hargs
      subst hargs
      show resolve_plot_entries model ((v, some args) :: rest) = _
      rw [resolve_plot_entries, hrest]
      rfl

/-- C8 amended: the loop drops a model only when it has zero members in TOTAL
(`len(model) == 0`, gui.py 107-108); a model whose members are all Independent
placeholders (zero Dependent variables but nonzero members) is NOT skipped —
tab construction is attempted for it, every entry of its plot config names a
non-Dependent symbol, figure evaluation raises, and the escaping
`PreventUpdate` aborts the entire build instead of merely omitting the
model. -/
theorem zero_member_drop_only (model : Model) (model_name : String)
    (prev : Option Model) (rest : List (String × ModelConf)) :
    (∀ plot, model.members = [] →
      get_gui_loop prev ((model_name, { inst := some model, plot := plot }) :: rest)
        = get_gui_loop (some model) rest) ∧
    ∀ conf : List (String × PlotEntry), model.members ≠ [] →
      (∀ d ∈ model.members, d.kind = VarKind.independent) →
      conf ≠ [] → (∀ e ∈ conf, (e.2).isSome) →
      get_gui_loop prev ((model_name, { inst := some model, plot := some conf }) :: rest)
        = Except.error BuildErr.preventUpdate := by
  constructor
  · intro plot h0
    rw [get_gui_loop]
    show (if model.members.length = 0 then _ else _) = _
    rw [if_pos (by rw [h0]; rfl)]
  · intro conf hne hind hconf hlit
    have hlen : ¬ model.members.length = 0 := by
      intro h0
      exact hne (List.length_eq_zero.mp h0)
    have hres := resolve_literal_entries model conf hlit
    obtain ⟨c, conf', hcc⟩ := List.exists_cons_of_ne_nil hconf
    have hfail : figureTrace model c.1 "ij"
        (getParams (conf.map (fun e => (e.1, (e.2).getD []))) c.1) = none := by
      cases hl : model_lookup model c.1 with
      | none => rw [figureTrace, hl]
      | some d =>
        have hd : d ∈ model.members := List.mem_of_find?_eq_some hl
        have hdk := hind d hd
        rw [figureTrace, hl]
        show (match d.kind with
          | VarKind.dependent => _
          | VarKind.independent => none) = none
        rw [hdk]
    rw [get_gui_loop]
    show (if model.members.length = 0 then _ else _) = _
    rw [if_neg hlen]
    show (match resolve_model_params model (some conf) with
      | Except.error e => Except.error e
      | Except.ok model_params => _) = _
    rw [show resolve_model_params model (some conf)
        = Except.ok (conf.map (fun e => (e.1, (e.2).getD []))) from hres]
    have hsub : make_kamodo_subplots model
        ((conf.map (fun e => (e.1, (e.2).getD []))).map (fun p => p.1))
        (conf.map (fun e => (e.1, (e.2).getD [])))
        = Except.error BuildErr.preventUpdate := by
      apply (make_kamodo_subplots_failure_aborts model _ _ _).1
      refine ⟨c.1, ?_, hfail⟩
      rw [hcc]
      exact List.mem_cons_self _ _
    dsimp only
    rw [hsub]

/-- A model whose only member is the Independent placeholder `x`, together
with a plot config naming `x` explicitly. -/
def mX8 : Model :=
  { members :=
    [ { name := "x", kind := VarKind.independent, callable := fun _ => none,
        defaults := none } ] }

def cfgX8 : Cfg :=
  { models := [("M", { inst := some mX8, plot := some [("x", some [("x", [0, 1, 2])])] })] }

/-- C8 counterexample: model M instantiates successfully and has zero
Dependent variables, yet it is not dropped by the `len(model) == 0` check —
the build proceeds into its tab and dies with `PreventUpdate`, so no UI model
list (with M gracefully absent) is ever produced. -/
theorem zero_dependent_model_not_dropped :
    dependent_labels mX8 = [] ∧ mX8.members.length = 1 ∧
    get_gui cfgX8 = Except.error BuildErr.preventUpdate ∧
    ∀ g : Gui, get_gui cfgX8 ≠ Except.ok g := by
  refine ⟨rfl, rfl, rfl, ?_⟩
  intro g h
  rw [show get_gui cfgX8 = Except.error BuildErr.preventUpdate from rfl] at h
  exact Except.noConfusion h

/-- Witness for the amended C8: a genuinely empty model is skipped and the
loop continues; the all-Independent model mX8 aborts the build. -/
theorem zero_member_drop_only_witness :
    get_gui_loop none [("E", { inst := some { members := [] }, plot := none })]
      = get_gui_loop (some { members := [] }) [] ∧
    get_gui_loop none
        [("M", { inst := some mX8, plot := some [("x", some [("x", [0, 1, 2])])] })]
      = Except.error BuildErr.preventUpdate := by
  have h1 := (zero_member_drop_only { members := [] } "E" none []).1 none rfl
  have h2 := (zero_member_drop_only mX8 "M" none []).2 [("x", some [("x", [0, 1, 2])])]
    (List.cons_ne_nil _ _)
    (by
      intro d hd
      rcases List.mem_singleton.mp hd with h
      rw [h])
    (List.cons_ne_nil _ _)
    (by
      intro e he
      rcases List.mem_singleton.mp he with h
      rw [h]
      rfl)
  exact ⟨h1, h2⟩

end KamodoGui
